import Mathlib

/-!
Shallow embedding of the `google_documents` package (entities/file.py,
entities/manager.py, entities/sheet.py) and verification of its
natural-language specification.

Conventions of the embedding:
* Python `str` is `String`, Python `int` is `Int`, Python optional
  attributes are `Option`-typed fields (`None` is `none`).
* Python `float` channels of `Color` are modelled by exact rationals
  (`PyFloat := Rat`): the code performs no arithmetic on them, it only
  moves them between a dict and an object, so the value representation
  is irrelevant to the properties proved here.
* Methods that raise (`assert`, uncaught exceptions) return `Except`,
  with the Python assertion message as the error payload.
* Calls into the Google API clients are modelled by explicit api-service
  records of functions (`SheetsApi`, `DriveApi`); a method that in Python
  calls `request.execute()` applies the corresponding record field.
-/

/-- Modelled from the spec: the `MIME_TYPES` table lives in
`google_documents/settings.py`, which is not among the source files; per the
spec it maps the keys used in `file.py` to Google Drive MIME type strings.
The folder MIME type string. -/
def mimeFolder : String := "application/vnd.google-apps.folder"

/-- Modelled from the spec: the document MIME type string of `MIME_TYPES`. -/
def mimeDocument : String := "application/vnd.google-apps.document"

/-- Modelled from the spec: the spreadsheet MIME type string of `MIME_TYPES`. -/
def mimeSpreadsheet : String := "application/vnd.google-apps.spreadsheet"

/-- Python `str(x)` for an optional string: `str(None)` is `"None"`. -/
def pyStrOpt : Option String → String
  | none => "None"
  | some s => s

/-- Python `str(b)` for a bool: `str(True) = "True"`, `str(False) = "False"`. -/
def pyBool : Bool → String
  | true => "True"
  | false => "False"

/-- The four wrapper classes of `file.py`:
`GoogleDriveFile` and its subclasses `GoogleDriveFolder`,
`GoogleDriveDocument`, `GoogleDriveSpreadsheet`. -/
inductive DriveFileClass
  | file
  | folder
  | document
  | spreadsheet
deriving DecidableEq, Repr

/-- Python class name of a wrapper class, as used by `__repr__`. -/
def pyClsName : DriveFileClass → String
  | .file => "GoogleDriveFile"
  | .folder => "GoogleDriveFolder"
  | .document => "GoogleDriveDocument"
  | .spreadsheet => "GoogleDriveSpreadsheet"

/-- A raw Drive file item (the dict Google returns): `from_item` reads
`item["id"]`, `item.get("name")` and `item.get("mimeType")`. -/
structure DriveItem where
  id : String
  name : Option String
  mimeType : Option String
deriving DecidableEq, Repr

/-- A `GoogleDriveFile` instance (file.py line 12): instance attributes
`id`, `name`, `mime_type` set by `__init__`; `cls` records which wrapper
class the object was instantiated from. -/
structure GoogleDriveFile where
  cls : DriveFileClass
  id : String
  name : Option String
  mime_type : Option String
deriving DecidableEq, Repr

/-- `cls.from_item(item)` (file.py lines 59-68) for a wrapper class `c`:
`cls(id=item["id"], name=item.get("name"), mime_type=item.get("mimeType"))`. -/
def from_item_as (c : DriveFileClass) (item : DriveItem) : GoogleDriveFile :=
  { cls := c, id := item.id, name := item.name, mime_type := item.mimeType }

/-- `GoogleDriveFile.__eq__` (file.py lines 30-31): `self.id == other.id`. -/
def GoogleDriveFile.eq (a b : GoogleDriveFile) : Bool :=
  a.id == b.id

/-- Python `str(f)` of a wrapper object: `GoogleDriveFolder.__str__` returns
`f"{self.name}"` (file.py lines 119-120); the other classes fall back to
`GoogleDriveFile.__repr__` (file.py lines 33-34). -/
def pyStrFile (f : GoogleDriveFile) : String :=
  match f.cls with
  | .folder => pyStrOpt f.name
  | _ => "<" ++ pyClsName f.cls ++ ": " ++ f.id ++ " - " ++ pyStrOpt f.name ++ ">"

/-- `GoogleDriveFilesFactory.file_classes` (file.py lines 225-229): the
dispatch dict from MIME type string to wrapper class. -/
def GoogleDriveFilesFactory.file_classes : List (String × DriveFileClass) :=
  [(mimeFolder, .folder), (mimeDocument, .document), (mimeSpreadsheet, .spreadsheet)]

/-- `GoogleDriveFilesFactory.get_file_class` (file.py lines 233-235):
`cls.file_classes.get(mime_type) or cls.default_class`; a missing key (in
particular the key `None`) falls back to `default_class = GoogleDriveFile`. -/
def GoogleDriveFilesFactory.get_file_class (mime_type : Option String) : DriveFileClass :=
  match mime_type with
  | none => .file
  | some s => (GoogleDriveFilesFactory.file_classes.lookup s).getD .file

/-- `GoogleDriveFilesFactory.from_item` (file.py lines 237-244):
`cls.get_file_class(item.get('mimeType')).from_item(item)`. -/
def GoogleDriveFilesFactory.from_item (item : DriveItem) : GoogleDriveFile :=
  from_item_as (GoogleDriveFilesFactory.get_file_class item.mimeType) item

/-- Spec-side dispatch, written the way claim C1 words it: folder MIME type
to the folder class, document to document, spreadsheet to spreadsheet, any
other (or missing) MIME type to the default class. -/
def claimFileClass : Option String → DriveFileClass
  | mt =>
    if mt = some mimeFolder then .folder
    else if mt = some mimeDocument then .document
    else if mt = some mimeSpreadsheet then .spreadsheet
    else .file

/-- Python floats are modelled by exact rationals; the code never computes
with them, it only copies them. -/
abbrev PyFloat := Rat

/-- The API item representation of a `Color`: a dict with keys
`red`, `green`, `blue`. -/
structure ColorItem where
  red : PyFloat
  green : PyFloat
  blue : PyFloat
deriving DecidableEq, Repr

/-- `Color` (sheet.py lines 4-19): three channels. -/
structure Color where
  red : PyFloat
  green : PyFloat
  blue : PyFloat
deriving DecidableEq, Repr

/-- `Color.to_item` (sheet.py lines 14-19): emits the three channels under
the keys `green`, `blue`, `red`. -/
def Color.to_item (c : Color) : ColorItem :=
  { red := c.red, green := c.green, blue := c.blue }

/-- Modelled from the spec: `Color.from_item` is inherited from
`FromItemable` (google_documents/entities/from_itemable.py, not among the
source files); the spec says a Color is serializable to and from the API's
representation, whose keys are `red`, `green`, `blue`. -/
def Color.from_item (item : ColorItem) : Color :=
  { red := item.red, green := item.green, blue := item.blue }

/-- The API item representation of `GridProperties`: a dict with keys
`rowCount`, `columnCount`. -/
structure GridPropertiesItem where
  rowCount : Int
  columnCount : Int
deriving DecidableEq, Repr

/-- `GridProperties` (sheet.py lines 22-35). -/
structure GridProperties where
  row_count : Int
  column_count : Int
deriving DecidableEq, Repr

/-- `GridProperties.to_item` (sheet.py lines 27-31). -/
def GridProperties.to_item (g : GridProperties) : GridPropertiesItem :=
  { rowCount := g.row_count, columnCount := g.column_count }

/-- `GridProperties.from_item` (sheet.py lines 33-35):
`cls(item['rowCount'], item['columnCount'])`. -/
def GridProperties.from_item (item : GridPropertiesItem) : GridProperties :=
  { row_count := item.rowCount, column_count := item.columnCount }

/-- ASCII lowercase test, the character class `[a-z]` of the regex in
`manager.py` line 101. -/
def isAsciiLower (c : Char) : Bool :=
  'a' ≤ c && c ≤ 'z'

/-- The substitution `re.sub('_[a-z]', lambda p: p.group(0)[-1].upper(), param)`
(manager.py line 101) on a character list: a left-to-right, non-overlapping
scan replacing each underscore followed by an ASCII lowercase letter with
that letter uppercased. -/
def camelCaseAux : List Char → List Char
  | [] => []
  | '_' :: c :: rest =>
    if isAsciiLower c then c.toUpper :: camelCaseAux rest
    else '_' :: camelCaseAux (c :: rest)
  | c :: rest => c :: camelCaseAux rest

/-- Snake case to camel case conversion of a filter parameter name
(manager.py line 101). -/
def to_camel_case (s : String) : String :=
  ⟨camelCaseAux s.data⟩

/-- A Python value passed as a filter keyword argument: a wrapper object
(for `folder=...`), a bool, or a string. -/
inductive FilterValue
  | folderV (f : GoogleDriveFile)
  | boolean (b : Bool)
  | str (s : String)
deriving DecidableEq, Repr

/-- Python `str(value)` of a filter value as interpolated by the f-strings
in `manager.py` lines 108-115. -/
def pyStrVal : FilterValue → String
  | .folderV f => pyStrFile f
  | .boolean b => pyBool b
  | .str s => s

/-- Whether a filter value is a wrapper object carrying an `id` attribute. -/
def isFolderVal : FilterValue → Bool
  | .folderV _ => true
  | _ => false

/-- `GoogleDriveDocumentManager._get_filter_folder_query` (manager.py lines
79-81): `f"'{folder.id}' in parents"`. -/
def _get_filter_folder_query (f : GoogleDriveFile) : String :=
  "'" ++ f.id ++ "' in parents"

/-- One iteration of the query loop of `GoogleDriveDocumentManager.filter`
(manager.py lines 98-115): the parameter named `folder` goes through the
special getter (raising `AttributeError` if the value has no `id`
attribute), a bool value renders as `{camel} = {value}`, anything else as
`{camel} contains '{value}'`. -/
def filter_param_query (param : String) (value : FilterValue) : Except String String :=
  if param = "folder" then
    match value with
    | .folderV f => .ok (_get_filter_folder_query f)
    | _ => .error "AttributeError"
  else
    match value with
    | .boolean b => .ok (to_camel_case param ++ " = " ++ pyBool b)
    | v => .ok (to_camel_case param ++ " contains '" ++ pyStrVal v ++ "'")

/-- The whole query loop: clauses in keyword order, stopping at the first
raised exception. -/
def filter_clauses : List (String × FilterValue) → Except String (List String)
  | [] => .ok []
  | p :: rest =>
    match filter_param_query p.1 p.2 with
    | .error e => .error e
    | .ok q =>
      match filter_clauses rest with
      | .error e => .error e
      | .ok qs => .ok (q :: qs)

/-- Python dict item assignment `kwargs[k] = v` on an insertion-ordered
association list: overwrite in place when the key exists, append otherwise. -/
def dictSet (kwargs : List (String × FilterValue)) (k : String) (v : FilterValue) :
    List (String × FilterValue) :=
  if kwargs.any fun p => p.1 = k then
    kwargs.map fun p => if p.1 = k then (k, v) else p
  else kwargs ++ [(k, v)]

/-- Python truthiness of an optional string: `None` and `""` are falsy. -/
def truthyStrOpt : Option String → Bool
  | none => false
  | some s => s ≠ ""

/-- The `kwargs['mime_type'] = self.file_cls.mime_type` step guarded by
`if self.file_cls.mime_type:` (manager.py lines 93-94). -/
def add_mime_kwarg (manager_mime : Option String)
    (kwargs : List (String × FilterValue)) : List (String × FilterValue) :=
  match manager_mime with
  | none => kwargs
  | some mt => if mt = "" then kwargs else dictSet kwargs "mime_type" (.str mt)

/-- The query string `q` built by `GoogleDriveDocumentManager.filter`
(manager.py lines 83-118) for a manager whose wrapper class has class
attribute `mime_type = manager_mime`: clauses joined with `" and "`. -/
def manager_filter_q (manager_mime : Option String)
    (kwargs : List (String × FilterValue)) : Except String String :=
  match filter_clauses (add_mime_kwarg manager_mime kwargs) with
  | .error e => .error e
  | .ok qs => .ok (String.intercalate " and " qs)

/-- The clause a single keyword renders to, written the way claim C2 words
it: `folder` as `'<id>' in parents`, a bool as `<camelKey> = <value>`, any
other value as `<camelKey> contains '<value>'`. -/
def claimClause (p : String × FilterValue) : String :=
  if p.1 = "folder" then
    match p.2 with
    | .folderV f => "'" ++ f.id ++ "' in parents"
    | v => pyStrVal v
  else
    match p.2 with
    | .boolean b => to_camel_case p.1 ++ " = " ++ pyBool b
    | v => to_camel_case p.1 ++ " contains '" ++ pyStrVal v ++ "'"

/-- Cell values as sent to and returned by the Sheets values endpoints
(the `values` lists of lists). -/
abbrev CellValues := List (List String)

/-- A request inside a `spreadsheets().batchUpdate` body; `Sheet.delete`
sends `{"requests": [{"deleteSheet": {"sheetId": self.id}}]}`. -/
inductive BatchRequest
  | deleteSheet (sheetId : Option Int)
deriving DecidableEq, Repr

/-- The Sheets v4 api service as the methods of `file.py` and `sheet.py`
use it. `valuesGet` models `spreadsheets().values().get(...).execute()`
returning the optional `values` key of the response; `valuesUpdate` and
`valuesClear` model the corresponding update/clear calls returning the raw
response; `batchUpdate` models `spreadsheets().batchUpdate(...).execute()`. -/
structure SheetsApi where
  valuesGet : String → String → Option CellValues
  valuesUpdate : String → String → CellValues → String → String
  valuesClear : String → String → String
  batchUpdate : String → List BatchRequest → String

/-- A `GoogleDriveSpreadsheet` instance (file.py line 148), restricted to
the attributes its range operations touch; `set_item_value_input_option`
is the attribute read by `__setitem__` (file.py lines 212-221). -/
structure GoogleDriveSpreadsheet where
  id : String
  name : Option String
  set_item_value_input_option : String
deriving DecidableEq, Repr

/-- Instantiating a spreadsheet wrapper: `__init__` does not touch
`set_item_value_input_option`, so it keeps the class value `"RAW"`
(file.py line 212). -/
def GoogleDriveSpreadsheet.init (id : String) (name : Option String) :
    GoogleDriveSpreadsheet :=
  { id := id, name := name, set_item_value_input_option := "RAW" }

/-- `GoogleDriveFile.__eq__` as inherited by `GoogleDriveSpreadsheet`:
comparison by `id` (file.py lines 30-31). -/
def GoogleDriveSpreadsheet.eq (a b : GoogleDriveSpreadsheet) : Bool :=
  a.id == b.id

/-- `GoogleDriveSpreadsheet.read` (file.py lines 159-169):
`response.get('values', [])` of the values-get call. -/
def GoogleDriveSpreadsheet.read (api : SheetsApi) (s : GoogleDriveSpreadsheet)
    (range_name : String) : CellValues :=
  (api.valuesGet s.id range_name).getD []

/-- `GoogleDriveSpreadsheet.write` (file.py lines 185-195): the values-update
call with body `{"values": data}` and the given `valueInputOption`. -/
def GoogleDriveSpreadsheet.write (api : SheetsApi) (s : GoogleDriveSpreadsheet)
    (range_name : String) (data : CellValues) (value_input_option : String) : String :=
  api.valuesUpdate s.id range_name data value_input_option

/-- `GoogleDriveSpreadsheet.clear` (file.py lines 176-183). -/
def GoogleDriveSpreadsheet.clear (api : SheetsApi) (s : GoogleDriveSpreadsheet)
    (range_name : String) : String :=
  api.valuesClear s.id range_name

/-- `GoogleDriveSpreadsheet.__getitem__` (file.py lines 205-210):
`return self.read(item)`. -/
def GoogleDriveSpreadsheet.getItem (api : SheetsApi) (s : GoogleDriveSpreadsheet)
    (item : String) : CellValues :=
  s.read api item

/-- `GoogleDriveSpreadsheet.__setitem__` (file.py lines 214-221):
`self.write(item, value, self.set_item_value_input_option)`. -/
def GoogleDriveSpreadsheet.setItem (api : SheetsApi) (s : GoogleDriveSpreadsheet)
    (item : String) (value : CellValues) : String :=
  s.write api item value s.set_item_value_input_option

/-- The message of the `assert self.spreadsheet` statements in `sheet.py`. -/
def spreadsheetUnknownMsg : String := "Spreadsheet for the sheet is unknown."

/-- A `Sheet` instance (sheet.py line 38): `id`, `index`, `title`,
`tab_color`, `grid_properties` as set by `__init__` (all default `None`),
the optional back-reference `spreadsheet` (class default `None`), and the
`set_item_value_input_option` attribute read by `__setitem__`. -/
structure Sheet where
  id : Option Int
  index : Option Int
  title : Option String
  tab_color : Option Color
  grid_properties : Option GridProperties
  spreadsheet : Option GoogleDriveSpreadsheet
  set_item_value_input_option : String
deriving DecidableEq, Repr

/-- `Sheet.__init__` (sheet.py lines 146-151): `spreadsheet` keeps the class
value `None` and `set_item_value_input_option` the class value `"RAW"`. -/
def Sheet.init (id : Option Int) (index : Option Int) (title : Option String)
    (tab_color : Option Color) (grid_properties : Option GridProperties) : Sheet :=
  { id := id, index := index, title := title, tab_color := tab_color,
    grid_properties := grid_properties, spreadsheet := none,
    set_item_value_input_option := "RAW" }

/-- `Sheet._get_spreadsheet_range_name` (sheet.py lines 48-52):
`f"{self.title}!{sheet_range_name}"`. -/
def Sheet._get_spreadsheet_range_name (s : Sheet) (sheet_range_name : String) : String :=
  pyStrOpt s.title ++ "!" ++ sheet_range_name

/-- `Sheet.read` (sheet.py lines 54-61): asserts the back-reference, then
delegates to the owning spreadsheet with the title-prefixed range. -/
def Sheet.read (api : SheetsApi) (s : Sheet) (range_name : String) :
    Except String CellValues :=
  match s.spreadsheet with
  | none => .error spreadsheetUnknownMsg
  | some ss => .ok (ss.read api (s._get_spreadsheet_range_name range_name))

/-- `Sheet.write` (sheet.py lines 63-77). -/
def Sheet.write (api : SheetsApi) (s : Sheet) (range_name : String)
    (data : CellValues) (value_input_option : String) : Except String String :=
  match s.spreadsheet with
  | none => .error spreadsheetUnknownMsg
  | some ss => .ok (ss.write api (s._get_spreadsheet_range_name range_name)
      data value_input_option)

/-- `Sheet.clear` (sheet.py lines 79-87). -/
def Sheet.clear (api : SheetsApi) (s : Sheet) (range_name : String) :
    Except String String :=
  match s.spreadsheet with
  | none => .error spreadsheetUnknownMsg
  | some ss => .ok (ss.clear api (s._get_spreadsheet_range_name range_name))

/-- `Sheet.delete` (sheet.py lines 89-100): asserts the back-reference,
executes the batchUpdate deleteSheet request, then sets `self.spreadsheet`
to `None` and returns the response; the returned pair is the response
together with the mutated object. -/
def Sheet.delete (api : SheetsApi) (s : Sheet) : Except String (String × Sheet) :=
  match s.spreadsheet with
  | none => .error spreadsheetUnknownMsg
  | some ss =>
    .ok (api.batchUpdate ss.id [BatchRequest.deleteSheet s.id],
      { s with spreadsheet := none })

/-- `Sheet.__eq__` (sheet.py lines 153-157): asserts both back-references,
then compares the owning spreadsheets (by id, via the inherited file
equality) and the sheet ids. -/
def Sheet.eq (a b : Sheet) : Except String Bool :=
  match a.spreadsheet with
  | none => .error spreadsheetUnknownMsg
  | some sa =>
    match b.spreadsheet with
    | none => .error spreadsheetUnknownMsg
    | some sb => .ok (GoogleDriveSpreadsheet.eq sa sb && a.id == b.id)

/-- `Sheet.__getitem__` (sheet.py lines 131-135): `return self.read(item)`. -/
def Sheet.getItem (api : SheetsApi) (s : Sheet) (item : String) :
    Except String CellValues :=
  s.read api item

/-- `Sheet.__setitem__` (sheet.py lines 139-144):
`self.write(item, value, self.set_item_value_input_option)`. -/
def Sheet.setItem (api : SheetsApi) (s : Sheet) (item : String) (value : CellValues) :
    Except String String :=
  s.write api item value s.set_item_value_input_option

/-- A `googleapiclient.errors.HttpError` raised by an api call. -/
structure HttpError where
  code : Int
deriving DecidableEq, Repr

/-- `GoogleDriveDocumentManager.get` (manager.py lines 69-77) for a manager
holding wrapper class `file_cls`, with the files-get api call modelled by
`fetch_item`. The outer `Except` is the Python exception channel of the
caller: the method wraps the call in `try ... except
googleapiclient.errors.HttpError: return None`, so an http error from the
api is caught and surfaces as `.ok none`, never as `.error`. -/
def GoogleDriveDocumentManager.get (fetch_item : String → Except HttpError DriveItem)
    (file_cls : DriveFileClass) (id : String) :
    Except HttpError (Option GoogleDriveFile) :=
  match fetch_item id with
  | .ok item => .ok (some (from_item_as file_cls item))
  | .error _ => .ok none

/-- An HTTP request that the Drive v3 files api can build; building one in
Python (`service.files().delete(...)` etc.) performs no I/O until
`.execute()` is called on it. -/
inductive DriveRequest
  | filesGet (fileId : String) (fields : Option String)
  | filesCopy (fileId : String) (bodyName : String)
  | filesDelete (fileId : String)
  | filesUpdate (fileId : String) (addParents : Option String) (fields : Option String)
deriving DecidableEq, Repr

/-- The Drive v3 api service: the response an executed request produces. -/
structure DriveApi where
  run : DriveRequest → DriveItem

/-- `.execute()` on a built request: performs the call and records it; the
second component of an effectful method's result is the list of requests
actually executed by the method. -/
def executeRequest (api : DriveApi) (req : DriveRequest) : DriveItem × List DriveRequest :=
  (api.run req, [req])

/-- `GoogleDriveFile.copy` (file.py lines 70-80): builds the files-copy
request, executes it, and wraps the response item via `self.from_item`
(which instantiates `self`'s own class). -/
def GoogleDriveFile.copy (api : DriveApi) (f : GoogleDriveFile) (file_name : String) :
    GoogleDriveFile × List DriveRequest :=
  let executed := executeRequest api (DriveRequest.filesCopy f.id file_name)
  (from_item_as f.cls executed.1, executed.2)

/-- `GoogleDriveFile.delete` (file.py lines 82-88): builds
`self._api_service.files().delete(fileId=self.id)` and discards the request
object without ever calling `.execute()` on it; the method returns Python
`None` and executes no request. -/
def GoogleDriveFile.delete (_api : DriveApi) (f : GoogleDriveFile) :
    Option DriveItem × List DriveRequest :=
  let _req := DriveRequest.filesDelete f.id
  (none, [])

/-- `Except` success test. -/
def isOkE {ε α : Type} : Except ε α → Bool
  | .ok _ => true
  | .error _ => false

/-- A concrete Sheets api service used to instantiate the theorems. -/
def api0 : SheetsApi :=
  { valuesGet := fun sid rng => some [[sid, rng]],
    valuesUpdate := fun sid rng _data opt => sid ++ "|" ++ rng ++ "|" ++ opt,
    valuesClear := fun sid rng => sid ++ "#" ++ rng,
    batchUpdate := fun sid _reqs => sid ++ "@batch" }

/-- A concrete spreadsheet wrapper. -/
def ssA : GoogleDriveSpreadsheet :=
  { id := "A", name := some "Alpha", set_item_value_input_option := "RAW" }

/-- A second concrete spreadsheet wrapper with a different remote id. -/
def ssB : GoogleDriveSpreadsheet :=
  { id := "B", name := none, set_item_value_input_option := "RAW" }

/-- A concrete sheet owned by `ssA`. -/
def sheetData : Sheet :=
  { id := some 1, index := some 0, title := some "Data", tab_color := none,
    grid_properties := none, spreadsheet := some ssA,
    set_item_value_input_option := "RAW" }

/-- A concrete sheet with the same remote sheet id as `sheetData` but owned
by the different spreadsheet `ssB`. -/
def sheetDataB : Sheet :=
  { id := some 1, index := some 0, title := some "Data", tab_color := none,
    grid_properties := none, spreadsheet := some ssB,
    set_item_value_input_option := "RAW" }

/-- A concrete sheet with no owning spreadsheet assigned. -/
def sheetOrphan : Sheet :=
  { id := some 2, index := some 1, title := some "Orphan", tab_color := none,
    grid_properties := none, spreadsheet := none,
    set_item_value_input_option := "RAW" }

/-- Two concrete file wrappers sharing a remote id but nothing else. -/
def fileA : GoogleDriveFile :=
  { cls := .file, id := "X", name := some "first", mime_type := none }

/-- See `fileA`. -/
def fileB : GoogleDriveFile :=
  { cls := .document, id := "X", name := some "second",
    mime_type := some mimeDocument }

/-- A concrete folder wrapper used in filter keywords. -/
def folderF1 : GoogleDriveFile :=
  { cls := .folder, id := "F1", name := some "Stuff", mime_type := some mimeFolder }

/-- Concrete filter keywords exercising all three clause shapes. -/
def kwargsEx : List (String × FilterValue) :=
  [("some_cool_parameter", .str "x"), ("trashed", .boolean false),
   ("folder", .folderV folderF1)]

/-- A files-get api call that succeeds with a fixed item. -/
def okFetch : String → Except HttpError DriveItem :=
  fun i => .ok { id := i, name := some "doc", mimeType := some mimeDocument }

/-- A files-get api call that raises an HTTP 500 error. -/
def errFetch : String → Except HttpError DriveItem :=
  fun _ => .error { code := 500 }

/-- C1: for every raw item, `GoogleDriveFilesFactory.from_item` instantiates
the wrapper class selected by the item's MIME type — folder, document and
spreadsheet MIME types map to their wrapper classes, anything else
(including a missing MIME type) maps to the default class — and the
instance carries the item's id, name and mimeType. -/
theorem factory_from_item_dispatch (item : DriveItem) :
    GoogleDriveFilesFactory.from_item item =
      { cls := claimFileClass item.mimeType, id := item.id,
        name := item.name, mime_type := item.mimeType } := by
  rcases item with ⟨i, n, mt⟩
  cases mt with
  | none => rfl
  | some s =>
    have hfd : (mimeDocument == mimeFolder) = false := by decide
    have hsf : (mimeSpreadsheet == mimeFolder) = false := by decide
    have hsd : (mimeSpreadsheet == mimeDocument) = false := by decide
    have hfd2 : ¬ mimeDocument = mimeFolder := by decide
    have hsf2 : ¬ mimeSpreadsheet = mimeFolder := by decide
    have hsd2 : ¬ mimeSpreadsheet = mimeDocument := by decide
    simp only [GoogleDriveFilesFactory.from_item, from_item_as,
      GoogleDriveFilesFactory.get_file_class, GoogleDriveFilesFactory.file_classes,
      List.lookup, claimFileClass]
    by_cases h1 : s = mimeFolder
    · subst h1; simp
    · by_cases h2 : s = mimeDocument
      · subst h2; simp [hfd, hfd2]
      · by_cases h3 : s = mimeSpreadsheet
        · subst h3; simp [hsf, hsd, hsf2, hsd2]
        · simp [beq_eq_false_iff_ne.mpr h1, beq_eq_false_iff_ne.mpr h2,
            beq_eq_false_iff_ne.mpr h3, h1, h2, h3]

/-- Each keyword whose `folder`-named entries carry wrapper objects renders
without exception, and to exactly the clause claim C2 describes. -/
lemma filter_clauses_ok (l : List (String × FilterValue))
    (hf : ∀ p ∈ l, p.1 = "folder" → isFolderVal p.2 = true) :
    filter_clauses l = .ok (l.map claimClause) := by
  induction l with
  | nil => rfl
  | cons p rest ih =>
    obtain ⟨k, v⟩ := p
    have hp := hf (k, v) (List.mem_cons_self _ _)
    have hrest : ∀ q ∈ rest, q.1 = "folder" → isFolderVal q.2 = true :=
      fun q hq => hf q (List.mem_cons_of_mem _ hq)
    have hclause : filter_param_query k v = .ok (claimClause (k, v)) := by
      by_cases h : k = "folder"
      · cases v with
        | folderV f =>
          simp [filter_param_query, claimClause, h, _get_filter_folder_query]
        | boolean b => have hw := hp h; simp [isFolderVal] at hw
        | str s => have hw := hp h; simp [isFolderVal] at hw
      · cases v <;> simp [filter_param_query, claimClause, h]
    simp [filter_clauses, hclause, ih hrest]

/-- Assigning a fresh key to a Python dict appends it in insertion order. -/
lemma dictSet_fresh (kwargs : List (String × FilterValue)) (k : String) (v : FilterValue)
    (h : ∀ p ∈ kwargs, p.1 ≠ k) :
    dictSet kwargs k v = kwargs ++ [(k, v)] := by
  have hany : (kwargs.any fun p => p.1 = k) = false := by
    rw [List.any_eq_false]
    intro p hp
    simp [h p hp]
  simp [dictSet, hany]

/-- C7: `GridProperties.from_item` inverts `GridProperties.to_item` on both
counts, `Color.to_item` exposes the three channels under the API keys, and
deserializing the emitted item restores the same Color. -/
theorem color_grid_properties_roundtrip (g : GridProperties) (c : Color) :
    (GridProperties.from_item g.to_item).row_count = g.row_count ∧
    (GridProperties.from_item g.to_item).column_count = g.column_count ∧
    c.to_item.red = c.red ∧ c.to_item.green = c.green ∧ c.to_item.blue = c.blue ∧
    Color.from_item c.to_item = c := by
  rcases g with ⟨r, co⟩
  rcases c with ⟨cr, cg, cb⟩
  refine ⟨rfl, rfl, rfl, rfl, rfl, rfl⟩

/-- C2: for a manager whose wrapper class has a non-empty `mime_type` and a
keyword list that does not itself use the key `mime_type` and whose
`folder`-named entries carry wrapper objects, the built query is the
`" and "`-join of one clause per keyword — `folder` rendered as
`'<folder.id>' in parents`, a bool as `<camelKey> = <value>`, anything else
as `<camelKey> contains '<value>'`, keys converted to camelCase — followed
by the clause `mimeType contains '<mime type>'` for the wrapper class. -/
theorem filter_builds_camel_case_query (mt : String) (kwargs : List (String × FilterValue))
    (hmt : mt ≠ "")
    (hnk : ∀ p ∈ kwargs, p.1 ≠ "mime_type")
    (hf : ∀ p ∈ kwargs, p.1 = "folder" → isFolderVal p.2 = true) :
    manager_filter_q (some mt) kwargs =
      .ok (String.intercalate " and "
        (kwargs.map claimClause ++ ["mimeType contains '" ++ mt ++ "'"])) := by
  have hadd : add_mime_kwarg (some mt) kwargs = kwargs ++ [("mime_type", .str mt)] := by
    simp [add_mime_kwarg, hmt, dictSet_fresh kwargs _ _ hnk]
  have hfall : ∀ p ∈ kwargs ++ [("mime_type", FilterValue.str mt)],
      p.1 = "folder" → isFolderVal p.2 = true := by
    intro p hp
    rcases List.mem_append.mp hp with h | h
    · exact hf p h
    · simp at h
      subst h
      intro hcontra
      simp at hcontra
  have hcl := filter_clauses_ok _ hfall
  have hmime : claimClause ("mime_type", FilterValue.str mt) =
      "mimeType contains '" ++ mt ++ "'" := by
    have h1 : to_camel_case "mime_type" ++ " contains '" = "mimeType contains '" := by
      decide
    simp only [claimClause, pyStrVal]
    rw [if_neg (by decide : ¬ ("mime_type" = "folder")), ← h1]
  rw [manager_filter_q, hadd, hcl]
  simp [List.map_append, hmime]

/-- C3: for every sheet whose spreadsheet back-reference is `None`, each of
`Sheet.read`, `Sheet.write` and `Sheet.clear` raises the assertion
immediately — for every api service, so no api call is involved — and for
every sheet whose back-reference is set, none of the three fails on that
precondition. -/
theorem sheet_ops_require_spreadsheet (api : SheetsApi) (s : Sheet) (r : String)
    (data : CellValues) (opt : String) :
    (s.spreadsheet = none →
      s.read api r = .error spreadsheetUnknownMsg ∧
      s.write api r data opt = .error spreadsheetUnknownMsg ∧
      s.clear api r = .error spreadsheetUnknownMsg) ∧
    (s.spreadsheet ≠ none →
      isOkE (s.read api r) = true ∧
      isOkE (s.write api r data opt) = true ∧
      isOkE (s.clear api r) = true) := by
  refine ⟨fun h => ?_, fun h => ?_⟩
  · exact ⟨by simp [Sheet.read, h], by simp [Sheet.write, h], by simp [Sheet.clear, h]⟩
  · cases hs : s.spreadsheet with
    | none => exact absurd hs h
    | some ss =>
      exact ⟨by simp [Sheet.read, hs, isOkE], by simp [Sheet.write, hs, isOkE],
        by simp [Sheet.clear, hs, isOkE]⟩

/-- Witness for C3 on concrete sheets with and without a back-reference. -/
theorem sheet_ops_require_spreadsheet_witness :
    (Sheet.read api0 sheetOrphan "A1" = .error spreadsheetUnknownMsg ∧
     Sheet.write api0 sheetOrphan "A1" [] "RAW" = .error spreadsheetUnknownMsg ∧
     Sheet.clear api0 sheetOrphan "A1" = .error spreadsheetUnknownMsg) ∧
    (isOkE (Sheet.read api0 sheetData "A1") = true ∧
     isOkE (Sheet.write api0 sheetData "A1" [] "RAW") = true ∧
     isOkE (Sheet.clear api0 sheetData "A1") = true) :=
  ⟨(sheet_ops_require_spreadsheet api0 sheetOrphan "A1" [] "RAW").1 rfl,
   (sheet_ops_require_spreadsheet api0 sheetData "A1" [] "RAW").2 (by decide)⟩

/-- C6: for every sheet with an owning spreadsheet and a title, `read`,
`write` and `clear` return exactly the owning spreadsheet's operation on
the `<title>!<range>` range. -/
theorem sheet_delegates_with_title_prefix (api : SheetsApi) (s : Sheet)
    (ss : GoogleDriveSpreadsheet) (t r : String) (data : CellValues) (opt : String)
    (hss : s.spreadsheet = some ss) (ht : s.title = some t) :
    s.read api r = .ok (ss.read api (t ++ "!" ++ r)) ∧
    s.write api r data opt = .ok (ss.write api (t ++ "!" ++ r) data opt) ∧
    s.clear api r = .ok (ss.clear api (t ++ "!" ++ r)) := by
  refine ⟨?_, ?_, ?_⟩ <;>
    simp [Sheet.read, Sheet.write, Sheet.clear, hss,
      Sheet._get_spreadsheet_range_name, ht, pyStrOpt]

/-- Witness for C6 on a concrete sheet and api service. -/
theorem sheet_delegates_with_title_prefix_witness :
    Sheet.read api0 sheetData "B2" =
      .ok (GoogleDriveSpreadsheet.read api0 ssA ("Data" ++ "!" ++ "B2")) ∧
    Sheet.write api0 sheetData "B2" [["v"]] "RAW" =
      .ok (GoogleDriveSpreadsheet.write api0 ssA ("Data" ++ "!" ++ "B2") [["v"]] "RAW") ∧
    Sheet.clear api0 sheetData "B2" =
      .ok (GoogleDriveSpreadsheet.clear api0 ssA ("Data" ++ "!" ++ "B2")) :=
  sheet_delegates_with_title_prefix api0 sheetData ssA "Data" "B2" [["v"]] "RAW" rfl rfl

/-- C5 counterexample: two sheets with the same remote sheet id but owned by
spreadsheets with different ids compare unequal, so Sheet equality is not
determined by the sheet id alone. -/
theorem sheet_eq_not_by_id_alone_cex :
    sheetData.id = sheetDataB.id ∧ Sheet.eq sheetData sheetDataB = .ok false :=
  ⟨rfl, rfl⟩

/-- C5 amended: File equality is by remote id alone; Sheet equality, defined
only when both sheets have an owning spreadsheet assigned, holds exactly
when the owning spreadsheets' ids are equal and the sheet ids are equal. -/
theorem eq_by_remote_identifier (a b : GoogleDriveFile) (sa sb : Sheet)
    (ssa ssb : GoogleDriveSpreadsheet)
    (ha : sa.spreadsheet = some ssa) (hb : sb.spreadsheet = some ssb) :
    (GoogleDriveFile.eq a b = true ↔ a.id = b.id) ∧
    Sheet.eq sa sb = .ok ((ssa.id == ssb.id) && (sa.id == sb.id)) := by
  constructor
  · simp [GoogleDriveFile.eq]
  · simp [Sheet.eq, ha, hb, GoogleDriveSpreadsheet.eq]

/-- Witness for the amended C5 on concrete files and sheets. -/
theorem eq_by_remote_identifier_witness :
    (GoogleDriveFile.eq fileA fileB = true ↔ fileA.id = fileB.id) ∧
    Sheet.eq sheetData sheetData =
      .ok ((ssA.id == ssA.id) && (sheetData.id == sheetData.id)) :=
  eq_by_remote_identifier fileA fileB sheetData sheetData ssA ssA rfl rfl

/-- C4 counterexample: when the files-get api call raises an HTTP error,
`GoogleDriveDocumentManager.get` returns `None` instead of letting the
error propagate to the caller. -/
theorem manager_get_swallows_http_error_cex :
    GoogleDriveDocumentManager.get errFetch .document "abc" = .ok none ∧
    GoogleDriveDocumentManager.get errFetch .document "abc" ≠
      .error { code := 500 } :=
  ⟨rfl, fun h => Except.noConfusion h⟩

/-- C4 amended: `get` converts a successful raw response into a wrapper of
the manager's target class via `from_item`, and when the api call fails
with an HTTP error it catches the error and returns `None`. -/
theorem manager_get_converts_and_catches
    (fetch_item : String → Except HttpError DriveItem)
    (c : DriveFileClass) (id : String) :
    (∀ item, fetch_item id = .ok item →
      GoogleDriveDocumentManager.get fetch_item c id =
        .ok (some (from_item_as c item))) ∧
    (∀ e, fetch_item id = .error e →
      GoogleDriveDocumentManager.get fetch_item c id = .ok none) := by
  constructor <;> intro x hx <;> simp [GoogleDriveDocumentManager.get, hx]

/-- Witness for the amended C4 on a succeeding and on a failing api call. -/
theorem manager_get_converts_and_catches_witness :
    GoogleDriveDocumentManager.get okFetch .document "abc" =
      .ok (some (from_item_as .document
        { id := "abc", name := some "doc", mimeType := some mimeDocument })) ∧
    GoogleDriveDocumentManager.get errFetch .document "abc" = .ok none :=
  ⟨(manager_get_converts_and_catches okFetch .document "abc").1 _ rfl,
   (manager_get_converts_and_catches errFetch .document "abc").2 { code := 500 } rfl⟩

/-- C8: `GoogleDriveFile.delete` builds the files-delete request but never
executes it — its executed-request list is empty for every api service and
file — whereas `copy`, built from the same api, executes its request; so
calling `delete` does not cause the remote delete operation to run. -/
theorem delete_builds_but_never_executes (api : DriveApi) (f : GoogleDriveFile)
    (n : String) :
    (GoogleDriveFile.delete api f).2 = [] ∧
    (GoogleDriveFile.copy api f n).2 = [DriveRequest.filesCopy f.id n] :=
  ⟨rfl, rfl⟩

/-- C9: the subscript interface coincides with the named operations:
spreadsheet and sheet `__getitem__` equal `read`, `__setitem__` equals
`write` at the object's `set_item_value_input_option`, and freshly
constructed objects have that option set to `"RAW"`. -/
theorem subscript_equals_read_write (api : SheetsApi) (ss : GoogleDriveSpreadsheet)
    (sh : Sheet) (r : String) (v : CellValues) (i : String) (n : Option String)
    (sid sidx : Option Int) (st : Option String) (stc : Option Color)
    (sgp : Option GridProperties) :
    ss.getItem api r = ss.read api r ∧
    ss.setItem api r v = ss.write api r v ss.set_item_value_input_option ∧
    (GoogleDriveSpreadsheet.init i n).set_item_value_input_option = "RAW" ∧
    sh.getItem api r = sh.read api r ∧
    sh.setItem api r v = sh.write api r v sh.set_item_value_input_option ∧
    (Sheet.init sid sidx st stc sgp).set_item_value_input_option = "RAW" :=
  ⟨rfl, rfl, rfl, rfl, rfl, rfl⟩

/-- C10: a successful `Sheet.delete` executes the batchUpdate deleteSheet
request and returns the sheet with its spreadsheet back-reference cleared;
on that detached sheet every subsequent `read`, `write`, `clear`, `delete`
and equality comparison fails fast on the missing back-reference. -/
theorem sheet_delete_detaches_spreadsheet (api api2 : SheetsApi) (s : Sheet)
    (ss : GoogleDriveSpreadsheet) (r : String) (data : CellValues) (opt : String)
    (other : Sheet) (hss : s.spreadsheet = some ss) :
    Sheet.delete api s =
      .ok (api.batchUpdate ss.id [BatchRequest.deleteSheet s.id],
        { s with spreadsheet := none }) ∧
    Sheet.read api2 { s with spreadsheet := none } r = .error spreadsheetUnknownMsg ∧
    Sheet.write api2 { s with spreadsheet := none } r data opt =
      .error spreadsheetUnknownMsg ∧
    Sheet.clear api2 { s with spreadsheet := none } r = .error spreadsheetUnknownMsg ∧
    Sheet.delete api2 { s with spreadsheet := none } = .error spreadsheetUnknownMsg ∧
    Sheet.eq { s with spreadsheet := none } other = .error spreadsheetUnknownMsg := by
  refine ⟨?_, ?_, ?_, ?_, ?_, ?_⟩ <;>
    simp [Sheet.delete, Sheet.read, Sheet.write, Sheet.clear, Sheet.eq, hss]

/-- Witness for C10 on a concrete sheet, spreadsheet and api service. -/
theorem sheet_delete_detaches_spreadsheet_witness :
    Sheet.delete api0 sheetData =
      .ok (api0.batchUpdate ssA.id [BatchRequest.deleteSheet sheetData.id],
        { sheetData with spreadsheet := none }) ∧
    Sheet.read api0 { sheetData with spreadsheet := none } "A1" =
      .error spreadsheetUnknownMsg ∧
    Sheet.write api0 { sheetData with spreadsheet := none } "A1" [] "RAW" =
      .error spreadsheetUnknownMsg ∧
    Sheet.clear api0 { sheetData with spreadsheet := none } "A1" =
      .error spreadsheetUnknownMsg ∧
    Sheet.delete api0 { sheetData with spreadsheet := none } =
      .error spreadsheetUnknownMsg ∧
    Sheet.eq { sheetData with spreadsheet := none } sheetDataB =
      .error spreadsheetUnknownMsg :=
  sheet_delete_detaches_spreadsheet api0 api0 sheetData ssA "A1" [] "RAW" sheetDataB rfl

/-- Witness for C2 on concrete keywords exercising all three clause shapes
and a document-typed manager. -/
theorem filter_builds_camel_case_query_witness :
    manager_filter_q (some mimeDocument) kwargsEx =
      .ok (String.intercalate " and "
        (kwargsEx.map claimClause ++
          ["mimeType contains '" ++ mimeDocument ++ "'"])) :=
  filter_builds_camel_case_query mimeDocument kwargsEx (by decide) (by decide) (by decide)
